import Mathlib

/-!
Verification development for the kinematic character-movement subsystem of
the `dream` repository (TypeScript / three.js / Rapier).

The numeric model uses `ℚ` for the exact arithmetic of the source's
floating-point expressions; a separate `FP` type (finite rational, NaN,
±infinity) models the IEEE special values where a claim is about
non-finite propagation.  The Rapier character controller and world are
external collaborators: their outputs (`computedMovement`,
`computedGrounded`) are modelled as data supplied by the environment,
exactly as the repository code consumes them.

Sources embedded here:
- `Physics` (src/systems/Physics.ts): `moveCharacter`, `moveAICharacter`,
  `isGrounded`, `isAIGrounded`, `createModelCollider`, `update`.
- `Player` (src/game/Player.ts): `handleMovement`, `handleJump`,
  `applyMovement`.
- `AIAgent` (src/game/AIAgent.ts): `update`, `updateMovement`.
- `Engine.gameLoop` (src/core/Engine.ts): tick event order.
-/

set_option autoImplicit false

namespace Dream

/-- A 3-component vector with exact rational components, modelling
`THREE.Vector3` / Rapier translation records in the source. -/
structure Vec3 where
  x : ℚ
  y : ℚ
  z : ℚ
  deriving DecidableEq

instance : Add Vec3 := ⟨fun a b => ⟨a.x + b.x, a.y + b.y, a.z + b.z⟩⟩

/-- The epsilon `0.0001` used by the movement integrator's vertical-override
test and by `Player.applyMovement`'s call threshold. -/
def eps : ℚ := 1 / 10000

/-- The gravitational acceleration `-9.81` used in both characters'
vertical-velocity integration. -/
def gravityY : ℚ := -981 / 100

/-- A Rapier character controller as the repository uses it:
`computeMovement pos desired` models the external
`computeColliderMovement` + `computedMovement()` round trip (the
collision-corrected movement for the body at `pos` given `desired`), and
`groundedFlag` models `computedGrounded()`, the grounded flag stored by the
controller's most recent movement computation. -/
structure CharacterController where
  computeMovement : Vec3 → Vec3 → Vec3
  groundedFlag : Bool

/-- A collider handle; `parent` models `collider.parent()?.translation()`:
the owning rigid body's current translation when the body resolves. -/
structure Collider where
  parent : Option Vec3
  deriving DecidableEq

/-- Result of a movement-integrator call: the translation committed to the
body (`none` when the body was not moved this call) and whether the
missing-handle error was logged. -/
structure MoveOutcome where
  newTranslation : Option Vec3
  loggedError : Bool
  deriving DecidableEq

/-- The `finalMovement` record computed inside `Physics.moveCharacter` /
`Physics.moveAICharacter`: corrected x and z always; y is the raw desired
y when both corrected horizontal components are below `0.0001` in absolute
value and the desired y exceeds `0.0001` in absolute value, otherwise the
corrected y. -/
def finalMovement (corrected desired : Vec3) : Vec3 :=
  { x := corrected.x
    y := if |corrected.x| < eps ∧ |corrected.z| < eps ∧ eps < |desired.y|
      then desired.y else corrected.y
    z := corrected.z }

/-- The `Physics` instance state the movement methods read: the two
character-controller handles created in `init` (either may be absent before
`init` resolves). -/
structure Physics where
  characterController : Option CharacterController
  aiCharacterController : Option CharacterController

/-- Shared body of `Physics.moveCharacter` and `Physics.moveAICharacter`
(the two methods are textually identical in the source apart from which
controller field they read).  Missing controller or collider: log an error
and return without moving.  Unresolvable parent body: return without
moving.  Otherwise commit `current + finalMovement` in a single
`setTranslation`. -/
def Physics.moveWith (ctrl : Option CharacterController)
    (collider : Option Collider) (desired : Vec3) : MoveOutcome :=
  match ctrl, collider with
  | some c, some col =>
    match col.parent with
    | some cur =>
      let corrected := c.computeMovement cur desired
      ⟨some (cur + finalMovement corrected desired), false⟩
    | none => ⟨none, false⟩
  | _, _ => ⟨none, true⟩

/-- `Physics.moveCharacter`: the player-path movement integrator. -/
def Physics.moveCharacter (p : Physics) (collider : Option Collider)
    (desired : Vec3) : MoveOutcome :=
  Physics.moveWith p.characterController collider desired

/-- `Physics.moveAICharacter`: the agent-path movement integrator. -/
def Physics.moveAICharacter (p : Physics) (collider : Option Collider)
    (desired : Vec3) : MoveOutcome :=
  Physics.moveWith p.aiCharacterController collider desired

/-- `Physics.isGrounded`: false when the controller or the collider handle
is missing, otherwise the player controller's stored grounded flag — the
collider argument itself is never consulted beyond the null check. -/
def Physics.isGrounded (p : Physics) (collider : Option Collider) : Bool :=
  match p.characterController, collider with
  | some c, some _ => c.groundedFlag
  | _, _ => false

/-- `Physics.isAIGrounded`: same shape as `isGrounded` over the AI
controller. -/
def Physics.isAIGrounded (p : Physics) (collider : Option Collider) : Bool :=
  match p.aiCharacterController, collider with
  | some c, some _ => c.groundedFlag
  | _, _ => false

/-- The gravity-accumulation / grounding-clamp block that appears verbatim
in both `Player.applyMovement` and `AIAgent.updateMovement`: when not
grounded, add `-9.81 * dt` to the vertical velocity; when grounded with
negative vertical velocity, reset it to zero; otherwise leave the velocity
unchanged. -/
def integrateVertical (grounded : Bool) (vel : Vec3) (dt : ℚ) : Vec3 :=
  if !grounded then { vel with y := vel.y + gravityY * dt }
  else if vel.y < 0 then { vel with y := 0 } else vel

/-- The horizontal desired translation a movement-integrator call delivers:
`(0, 0)` when no call is issued this tick, otherwise the issued
translation's x and z components. -/
def horizontalDesired : Option Vec3 → ℚ × ℚ
  | none => (0, 0)
  | some t => (t.x, t.z)

namespace Player

/-- `Player.applyMovement`: integrate the vertical velocity against the
grounded query, build `translation = velocity * deltaTime`, and call the
movement integrator only when some component of the translation exceeds
`0.0001` in absolute value.  Returns the new velocity state and the desired
translation issued to `Physics.moveCharacter` (`none` when the call is
skipped). -/
def applyMovement (grounded : Bool) (vel : Vec3) (dt : ℚ) :
    Vec3 × Option Vec3 :=
  let v := integrateVertical grounded vel dt
  let t : Vec3 := ⟨v.x * dt, v.y * dt, v.z * dt⟩
  if eps < |t.x| ∨ eps < |t.z| ∨ eps < |t.y| then (v, some t) else (v, none)

end Player

namespace AIAgent

/-- The agent's `moveSpeed = 2.5`. -/
def moveSpeed : ℚ := 5 / 2

/-- The agent's `followDistance = 1.5`. -/
def followDistance : ℚ := 3 / 2

/-- The squared planar (y-zeroed) distance from the agent's current
position to its target; `direction.length()` in the source is the square
root of this quantity. -/
def planarDistSq (current target : Vec3) : ℚ :=
  (target.x - current.x) ^ 2 + (target.z - current.z) ^ 2

/-- `AIAgent.updateMovement`: compute the y-zeroed direction to the target;
if its length `len` exceeds the follow distance, normalize it, set the
horizontal velocity to `direction * moveSpeed`, run the shared
gravity/grounding block on the vertical component, and issue
`velocity * deltaTime` to `Physics.moveAICharacter`; otherwise do nothing
(velocity and position untouched, no integrator call).  `len` stands for
the floating-point `direction.length()`; theorems constrain it by
`len * len = planarDistSq current target` and `0 ≤ len`.  The
facing-angle update only rotates the visual model and is omitted. -/
def updateMovement (grounded : Bool) (vel current target : Vec3)
    (len dt : ℚ) : Vec3 × Option Vec3 :=
  let dir : Vec3 := ⟨target.x - current.x, 0, target.z - current.z⟩
  if followDistance < len then
    let v1 : Vec3 := ⟨dir.x / len * moveSpeed, vel.y, dir.z / len * moveSpeed⟩
    let v2 := integrateVertical grounded v1 dt
    (v2, some ⟨v2.x * dt, v2.y * dt, v2.z * dt⟩)
  else (vel, none)

/-- `AIAgent.update`: when tracking is enabled run pathfinding (which only
refreshes `target` and is abstracted into the `target` argument) and
`updateMovement`; when tracking is disabled do nothing but sync the visual
model.  Returns the new velocity state and the desired translation issued
to the integrator this tick. -/
def update (tracking grounded : Bool) (vel current target : Vec3)
    (len dt : ℚ) : Vec3 × Option Vec3 :=
  if tracking then updateMovement grounded vel current target len dt
  else (vel, none)

end AIAgent

/-- Colliders produced by `Physics.createModelCollider`, tagged by origin:
a trimesh collider for submesh `idx`, the per-submesh bounding-box fallback
for submesh `idx`, or the whole-model bounding-box fallback. -/
inductive ColliderShape where
  | trimesh (idx : Nat)
  | submeshBox (idx : Nat)
  | modelBox
  deriving DecidableEq

/-- The traversal loop of `Physics.createModelCollider`: each submesh is
represented by whether its external trimesh construction succeeds
(`RAPIER.ColliderDesc.trimesh` throwing is the only failure the
`try`/`catch` distinguishes); on success a trimesh collider is pushed, on
failure the `catch` block pushes a bounding-box collider for that submesh. -/
def Physics.buildSubmeshColliders : Nat → List Bool → List ColliderShape
  | _, [] => []
  | i, ok :: rest =>
    (if ok then ColliderShape.trimesh i else ColliderShape.submeshBox i)
      :: Physics.buildSubmeshColliders (i + 1) rest

/-- `Physics.createModelCollider`: build the per-submesh colliders; if none
were produced at all, fall back to a single whole-model bounding-box
collider. -/
def Physics.createModelCollider (meshes : List Bool) : List ColliderShape :=
  let cs := Physics.buildSubmeshColliders 0 meshes
  if cs.isEmpty then [ColliderShape.modelBox] else cs

/-- The two character kinds driven through the movement integrator. -/
inductive Actor where
  | player
  | agent
  deriving DecidableEq

/-- Observable physics events of one pass of `Engine.gameLoop`, at the
granularity claim C9 speaks about: the collision world's `step()`, a
desired-translation request issued to the movement integrator, and a
read-back of a committed body position. -/
inductive TickEvent where
  | step
  | moveRequest (who : Actor)
  | readback (who : Actor)
  deriving DecidableEq

/-- Whether an event is a desired-translation request. -/
def TickEvent.isMoveRequest : TickEvent → Bool
  | TickEvent.moveRequest _ => true
  | _ => false

namespace Engine

/-- The physics-relevant event trace of one `Engine.gameLoop` pass:
`physics.update` (the world step) runs first; then `player.update`, which
issues `moveCharacter` when the translation threshold is met
(`playerIssues`) and always reads the body position back in
`syncCameraWithPhysics`; then `aiAgent.update`, which when tracking reads
the agent body position in `updateMovement` and issues `moveAICharacter`
when beyond the follow distance (`agentIssues`), and always reads the body
position back in `syncModelWithPhysics`. -/
def tickEvents (playerIssues tracking agentIssues : Bool) : List TickEvent :=
  [TickEvent.step]
    ++ (if playerIssues then [TickEvent.moveRequest Actor.player] else [])
    ++ [TickEvent.readback Actor.player]
    ++ (if tracking then
          [TickEvent.readback Actor.agent]
            ++ (if agentIssues then [TickEvent.moveRequest Actor.agent] else [])
        else [])
    ++ [TickEvent.readback Actor.agent]

/-- The events of a tick that occur strictly after the (first) `step`
event. -/
def afterStep (t : List TickEvent) : List TickEvent :=
  (t.dropWhile (fun e => !decide (e = TickEvent.step))).tail

end Engine

/-- The squared Euclidean norm of a vector. -/
def normSq (v : Vec3) : ℚ := v.x ^ 2 + v.y ^ 2 + v.z ^ 2

/-- The squared norm of a vector's horizontal (x, z) part. -/
def horizNormSq (v : Vec3) : ℚ := v.x ^ 2 + v.z ^ 2

/-- An axis-aligned cuboid volume (Rapier `ColliderDesc.cuboid` placed at a
translation), used to model a blocking static collider. -/
structure Cuboid where
  center : Vec3
  halfExtents : Vec3
  deriving DecidableEq

/-- Strict interior membership of a point in a cuboid volume. -/
def Cuboid.containsInterior (b : Cuboid) (p : Vec3) : Bool :=
  decide (|p.x - b.center.x| < b.halfExtents.x) &&
  decide (|p.y - b.center.y| < b.halfExtents.y) &&
  decide (|p.z - b.center.z| < b.halfExtents.z)

/-- The contract the spec assigns to the external character controller for
a blocking volume `b`: the corrected movement is no longer than the desired
one, and the corrected end position does not penetrate `b`. The repository
never checks this itself; it is the collaborator guarantee C8 builds on. -/
def controllerContract (b : Cuboid) (cur desired corrected : Vec3) : Prop :=
  normSq corrected ≤ normSq desired ∧
  b.containsInterior (cur + corrected) = false

/-- A JavaScript number restricted to what claim C5 needs: an exact finite
value, `NaN`, or a signed infinity. -/
inductive FP where
  | num (q : ℚ)
  | nan
  | inf
  | ninf
  deriving DecidableEq

namespace FP

/-- JavaScript's global `isNaN` on a number. -/
def isNaN : FP → Bool
  | nan => true
  | _ => false

/-- `Number.isFinite`: true exactly on finite values. -/
def isFinite : FP → Bool
  | num _ => true
  | _ => false

/-- IEEE negation. -/
def neg : FP → FP
  | num q => num (-q)
  | nan => nan
  | inf => ninf
  | ninf => inf

/-- IEEE addition on the modelled values. -/
def add : FP → FP → FP
  | nan, _ => nan
  | _, nan => nan
  | inf, ninf => nan
  | ninf, inf => nan
  | inf, _ => inf
  | _, inf => inf
  | ninf, _ => ninf
  | _, ninf => ninf
  | num a, num b => num (a + b)

/-- IEEE subtraction. -/
def sub (a b : FP) : FP := add a (neg b)

/-- IEEE multiplication on the modelled values. -/
def mul : FP → FP → FP
  | nan, _ => nan
  | _, nan => nan
  | num a, num b => num (a * b)
  | inf, num b => if b = 0 then nan else if 0 < b then inf else ninf
  | num a, inf => if a = 0 then nan else if 0 < a then inf else ninf
  | ninf, num b => if b = 0 then nan else if 0 < b then ninf else inf
  | num a, ninf => if a = 0 then nan else if 0 < a then ninf else inf
  | inf, inf => inf
  | inf, ninf => ninf
  | ninf, inf => ninf
  | ninf, ninf => inf

/-- The JavaScript `<` comparison: false whenever either side is NaN. -/
def lt : FP → FP → Bool
  | nan, _ => false
  | _, nan => false
  | num a, num b => decide (a < b)
  | inf, inf => false
  | ninf, ninf => false
  | ninf, _ => true
  | _, inf => true
  | _, _ => false

/-- `Math.abs` on the modelled values. -/
def abs : FP → FP
  | num q => num |q|
  | nan => nan
  | inf => inf
  | ninf => inf

/-- The `Math.abs(a) > e` test of the source (false when `a` is NaN). -/
def absGt (a : FP) (e : ℚ) : Bool := lt (num e) (abs a)

/-- `THREE.MathUtils.lerp x y t = x + (y - x) * t`, over FP. -/
def lerp (a b t : FP) : FP := add a (mul (sub b a) t)

end FP

/-- A velocity vector with JavaScript-number components. -/
structure FPVec3 where
  x : FP
  y : FP
  z : FP
  deriving DecidableEq

namespace Player

/-- `Player.handleMovement` over FP.  `input` is `some (tx, tz)` when a
movement key is held, carrying the camera-derived target velocity
(`inputDirection.normalize() * moveSpeed`); `accelDt` models
`acceleration * deltaTime` and `decelFactor` models
`Math.pow(1 - friction, deltaTime)`, both external to the claim.  With
input held, x and z are reset to 0 if NaN (`isNaN` checks) and then
lerped toward the targets; with no input held, x and z are scaled by the
deceleration factor only when neither is NaN, otherwise the velocity is
left untouched.  The y component is never examined. -/
def handleMovement (input : Option (FP × FP)) (accelDt decelFactor : FP)
    (v : FPVec3) : FPVec3 :=
  match input with
  | some (tx, tz) =>
    let vx := if v.x.isNaN then FP.num 0 else v.x
    let vz := if v.z.isNaN then FP.num 0 else v.z
    ⟨FP.lerp vx tx accelDt, v.y, FP.lerp vz tz accelDt⟩
  | none =>
    if !v.x.isNaN && !v.z.isNaN then
      ⟨v.x.mul decelFactor, v.y, v.z.mul decelFactor⟩
    else v

/-- `Player.handleJump` over FP: while space is held and the body is
grounded, set the vertical velocity to the jump speed `6.0`. -/
def handleJump (spaceHeld grounded : Bool) (v : FPVec3) : FPVec3 :=
  if spaceHeld && grounded then ⟨v.x, FP.num 6, v.z⟩ else v

/-- The gravity / grounding-clamp block of `Player.applyMovement` over FP
(note `velocity.y < 0` is false when y is NaN, so a NaN survives the
grounded branch too). -/
def integrateVerticalFP (grounded : Bool) (dt : FP) (v : FPVec3) : FPVec3 :=
  if !grounded then ⟨v.x, v.y.add ((FP.num gravityY).mul dt), v.z⟩
  else if v.y.lt (FP.num 0) then ⟨v.x, FP.num 0, v.z⟩ else v

/-- `Player.applyMovement` over FP: the gravity / grounding-clamp block,
then `translation = velocity * deltaTime`, issued to the integrator only
when some component exceeds `0.0001` in absolute value. -/
def applyMovementFP (grounded : Bool) (dt : FP) (v : FPVec3) :
    FPVec3 × Option FPVec3 :=
  let v1 : FPVec3 := integrateVerticalFP grounded dt v
  let t : FPVec3 := ⟨v1.x.mul dt, v1.y.mul dt, v1.z.mul dt⟩
  if t.x.absGt eps || t.z.absGt eps || t.y.absGt eps then (v1, some t)
  else (v1, none)

/-- One full `Player.update` velocity pass over FP:
`handleMovement`, then `handleJump`, then `applyMovement`.  Returns the
velocity state carried into the next tick and the desired translation
issued to the integrator (if any). -/
def updateFP (input : Option (FP × FP)) (accelDt decelFactor : FP)
    (spaceHeld grounded : Bool) (dt : FP) (v : FPVec3) :
    FPVec3 × Option FPVec3 :=
  applyMovementFP grounded dt
    (handleJump spaceHeld grounded (handleMovement input accelDt decelFactor v))

end Player

/-! Helper lemmas (shared across claims). -/

theorem Vec3.add_def (a b : Vec3) :
    a + b = ⟨a.x + b.x, a.y + b.y, a.z + b.z⟩ := rfl

theorem integrateVertical_x (g : Bool) (v : Vec3) (dt : ℚ) :
    (integrateVertical g v dt).x = v.x := by
  unfold integrateVertical
  split
  · rfl
  · split <;> rfl

theorem integrateVertical_z (g : Bool) (v : Vec3) (dt : ℚ) :
    (integrateVertical g v dt).z = v.z := by
  unfold integrateVertical
  split
  · rfl
  · split <;> rfl

theorem integrateVertical_y_clamped (v : Vec3) (dt : ℚ) (h : v.y < 0) :
    (integrateVertical true v dt).y = 0 := by
  simp [integrateVertical, h]

theorem integrateVertical_y_airborne (v : Vec3) (dt : ℚ) :
    (integrateVertical false v dt).y = v.y + gravityY * dt := by
  simp [integrateVertical]

theorem applyMovement_fst (g : Bool) (v : Vec3) (dt : ℚ) :
    (Player.applyMovement g v dt).1 = integrateVertical g v dt := by
  dsimp only [Player.applyMovement]
  split <;> rfl

theorem applyMovementFP_fst (g : Bool) (dt : FP) (v : FPVec3) :
    (Player.applyMovementFP g dt v).1 = Player.integrateVerticalFP g dt v := by
  dsimp only [Player.applyMovementFP]
  split <;> rfl

theorem moveWith_missing (ctrl : Option CharacterController)
    (col : Option Collider) (desired : Vec3)
    (h : ctrl = none ∨ col = none) :
    Physics.moveWith ctrl col desired = ⟨none, true⟩ := by
  rcases h with rfl | rfl
  · cases col <;> rfl
  · cases ctrl <;> rfl

theorem buildSubmeshColliders_length (i : Nat) (ms : List Bool) :
    (Physics.buildSubmeshColliders i ms).length = ms.length := by
  induction ms generalizing i with
  | nil => rfl
  | cons b rest ih => simp [Physics.buildSubmeshColliders, ih]

theorem buildSubmeshColliders_all_fail (ms : List Bool)
    (h : ∀ b ∈ ms, b = false) :
    ∀ i, ∀ c ∈ Physics.buildSubmeshColliders i ms,
      ∃ j, c = ColliderShape.submeshBox j := by
  induction ms with
  | nil => intro i c hc; simp [Physics.buildSubmeshColliders] at hc
  | cons b rest ih =>
    intro i c hc
    have hb : b = false := h b (List.mem_cons_self b rest)
    subst hb
    simp only [Physics.buildSubmeshColliders, if_neg Bool.false_ne_true,
      List.mem_cons] at hc
    rcases hc with rfl | hc
    · exact ⟨i, rfl⟩
    · exact ih (fun x hx => h x (List.mem_cons_of_mem _ hx)) (i + 1) c hc

/-! Claim theorems. -/

/-- Claim C1 (confirmed): a movement-integrator call with a resolvable body
commits `old position + finalMovement` in a single update, for both
`moveCharacter` and `moveAICharacter`; and for every corrected/desired
pair, the final movement keeps the corrected horizontal components, takes
the desired vertical component exactly when both corrected horizontal
components are below `0.0001` in absolute value and the desired vertical
component exceeds `0.0001` in absolute value, and the corrected vertical
component otherwise. -/
theorem moveCharacter_commits_with_vertical_override
    (p : Physics) (c ca : CharacterController) (col cola : Collider)
    (cur cura desired desireda : Vec3)
    (hc : p.characterController = some c) (hp : col.parent = some cur)
    (hca : p.aiCharacterController = some ca) (hpa : cola.parent = some cura) :
    (p.moveCharacter (some col) desired =
      ⟨some (cur + finalMovement (c.computeMovement cur desired) desired),
        false⟩) ∧
    (p.moveAICharacter (some cola) desireda =
      ⟨some (cura + finalMovement (ca.computeMovement cura desireda) desireda),
        false⟩) ∧
    ∀ corrected d : Vec3,
      (finalMovement corrected d).x = corrected.x ∧
      (finalMovement corrected d).z = corrected.z ∧
      ((|corrected.x| < eps ∧ |corrected.z| < eps ∧ eps < |d.y|) →
        (finalMovement corrected d).y = d.y) ∧
      (¬ (|corrected.x| < eps ∧ |corrected.z| < eps ∧ eps < |d.y|) →
        (finalMovement corrected d).y = corrected.y) := by
  refine ⟨?_, ?_, ?_⟩
  · simp [Physics.moveCharacter, Physics.moveWith, hc, hp]
  · simp [Physics.moveAICharacter, Physics.moveWith, hca, hpa]
  · intro corrected d
    refine ⟨rfl, rfl, ?_, ?_⟩
    · intro h
      simp [finalMovement, if_pos h]
    · intro h
      simp [finalMovement, if_neg h]

/-- Witness for C1 at a concrete resolvable body: a controller whose
corrected movement is `(1/2, 1/2, 1/2)` for desired `(1, 0, 0)` commits
the body from `(2, 3, 4)` to `(5/2, 7/2, 9/2)` with no error log. -/
theorem moveCharacter_commits_with_vertical_override_witness :
    (Physics.mk (some ⟨fun _ _ => ⟨1/2, 1/2, 1/2⟩, false⟩)
        (some ⟨fun _ _ => ⟨0, 0, 0⟩, false⟩)).moveCharacter
      (some ⟨some ⟨2, 3, 4⟩⟩) ⟨1, 0, 0⟩ = ⟨some ⟨5/2, 7/2, 9/2⟩, false⟩ := by
  have h := (moveCharacter_commits_with_vertical_override
    (Physics.mk (some ⟨fun _ _ => ⟨1/2, 1/2, 1/2⟩, false⟩)
      (some ⟨fun _ _ => ⟨0, 0, 0⟩, false⟩))
    ⟨fun _ _ => ⟨1/2, 1/2, 1/2⟩, false⟩ ⟨fun _ _ => ⟨0, 0, 0⟩, false⟩
    ⟨some ⟨2, 3, 4⟩⟩ ⟨some ⟨0, 0, 0⟩⟩ ⟨2, 3, 4⟩ ⟨0, 0, 0⟩ ⟨1, 0, 0⟩ ⟨0, 0, 0⟩
    rfl rfl rfl rfl).1
  rw [h]
  norm_num [finalMovement, eps, Vec3.add_def, abs]

/-- Claim C7 (confirmed): a movement-integrator call with a missing
controller or a missing collider commits no translation, logs the error,
and (being a total function of its inputs) propagates no exception. -/
theorem moveCharacter_missing_handle_noop (p : Physics)
    (col : Option Collider) (desired : Vec3)
    (h : p.characterController = none ∨ col = none)
    (ha : p.aiCharacterController = none ∨ col = none) :
    (p.moveCharacter col desired).newTranslation = none ∧
    (p.moveCharacter col desired).loggedError = true ∧
    (p.moveAICharacter col desired).newTranslation = none ∧
    (p.moveAICharacter col desired).loggedError = true := by
  have h1 := moveWith_missing p.characterController col desired h
  have h2 := moveWith_missing p.aiCharacterController col desired ha
  rw [Physics.moveCharacter, Physics.moveAICharacter, h1, h2]
  exact ⟨rfl, rfl, rfl, rfl⟩

/-- Witness for C7: a `Physics` state before `init` (both controllers
absent) with a live collider handle neither moves the body nor crashes,
and logs the condition. -/
theorem moveCharacter_missing_handle_noop_witness :
    ((Physics.mk none none).moveCharacter (some ⟨some ⟨0, 0, 0⟩⟩)
        ⟨1, 2, 3⟩).newTranslation = none ∧
    ((Physics.mk none none).moveCharacter (some ⟨some ⟨0, 0, 0⟩⟩)
        ⟨1, 2, 3⟩).loggedError = true := by
  have h := moveCharacter_missing_handle_noop (Physics.mk none none)
    (some ⟨some ⟨0, 0, 0⟩⟩) ⟨1, 2, 3⟩ (Or.inl rfl) (Or.inl rfl)
  exact ⟨h.1, h.2.1⟩

/-- Claim C10 (confirmed): the grounded queries ignore which collider
handle is passed beyond the null check — any two non-null collider handles
give the same answer under the same controller state, and that answer is
the shared controller's stored grounded flag (the result of its most
recent movement computation), for both `isGrounded` and `isAIGrounded`. -/
theorem isGrounded_independent_of_collider (p : Physics)
    (c1 c2 : Option Collider) (h1 : c1.isSome = true) (h2 : c2.isSome = true) :
    p.isGrounded c1 = p.isGrounded c2 ∧
    p.isAIGrounded c1 = p.isAIGrounded c2 ∧
    (∀ ctrl, p.characterController = some ctrl →
      p.isGrounded c1 = ctrl.groundedFlag) ∧
    (∀ ctrl, p.aiCharacterController = some ctrl →
      p.isAIGrounded c1 = ctrl.groundedFlag) := by
  rcases Option.isSome_iff_exists.mp h1 with ⟨v1, rfl⟩
  rcases Option.isSome_iff_exists.mp h2 with ⟨v2, rfl⟩
  refine ⟨?_, ?_, ?_, ?_⟩
  · cases hp : p.characterController <;>
      simp [Physics.isGrounded, hp]
  · cases hp : p.aiCharacterController <;>
      simp [Physics.isAIGrounded, hp]
  · intro ctrl hctrl
    simp [Physics.isGrounded, hctrl]
  · intro ctrl hctrl
    simp [Physics.isAIGrounded, hctrl]

/-- Witness for C10: two distinct non-null collider handles (bodies at
different positions) receive the identical grounded answer, which is the
controller's stored flag (`true`), not anything about either collider. -/
theorem isGrounded_independent_of_collider_witness :
    (Physics.mk (some ⟨fun _ _ => ⟨0, 0, 0⟩, true⟩) none).isGrounded
        (some ⟨some ⟨0, 0, 0⟩⟩) =
      (Physics.mk (some ⟨fun _ _ => ⟨0, 0, 0⟩, true⟩) none).isGrounded
        (some ⟨some ⟨9, 9, 9⟩⟩) ∧
    (Physics.mk (some ⟨fun _ _ => ⟨0, 0, 0⟩, true⟩) none).isGrounded
        (some ⟨some ⟨0, 0, 0⟩⟩) = true := by
  have h := isGrounded_independent_of_collider
    (Physics.mk (some ⟨fun _ _ => ⟨0, 0, 0⟩, true⟩) none)
    (some ⟨some ⟨0, 0, 0⟩⟩) (some ⟨some ⟨9, 9, 9⟩⟩) rfl rfl
  exact ⟨h.1, h.2.2.1 ⟨fun _ _ => ⟨0, 0, 0⟩, true⟩ rfl⟩

/-- Claim C2 (corrected): the grounding clamp and free-fall law hold for
the player on every tick, and for the agent only on ticks where it is
pursuing beyond the follow distance — on other agent ticks no vertical
integration happens at all (see the counterexample).  Here: grounded with
negative vertical velocity at tick start gives vertical velocity zero
after integration; not grounded gives vertical velocity decreased by
`9.81 * dt`. -/
theorem grounding_clamp_and_freefall (grounded : Bool) (vel : Vec3) (dt : ℚ)
    (current target : Vec3) (len : ℚ)
    (hpursue : AIAgent.followDistance < len) :
    (grounded = true → vel.y < 0 →
      (Player.applyMovement grounded vel dt).1.y = 0) ∧
    (grounded = false →
      (Player.applyMovement grounded vel dt).1.y = vel.y + gravityY * dt) ∧
    (grounded = true → vel.y < 0 →
      (AIAgent.updateMovement grounded vel current target len dt).1.y = 0) ∧
    (grounded = false →
      (AIAgent.updateMovement grounded vel current target len dt).1.y =
        vel.y + gravityY * dt) := by
  have hm : ∀ g : Bool, (AIAgent.updateMovement g vel current target len dt).1
      = integrateVertical g
          ⟨(target.x - current.x) / len * AIAgent.moveSpeed, vel.y,
            (target.z - current.z) / len * AIAgent.moveSpeed⟩ dt := by
    intro g
    dsimp only [AIAgent.updateMovement]
    rw [if_pos hpursue]
  refine ⟨?_, ?_, ?_, ?_⟩
  · rintro rfl hneg
    rw [applyMovement_fst]
    exact integrateVertical_y_clamped vel dt hneg
  · rintro rfl
    rw [applyMovement_fst]
    exact integrateVertical_y_airborne vel dt
  · rintro rfl hneg
    rw [hm true]
    exact integrateVertical_y_clamped _ dt hneg
  · rintro rfl
    rw [hm false]
    exact integrateVertical_y_airborne _ dt

/-- Witness for C2 at the spec's own scenarios: grounded with
`velocity.y = -3` clamps to `0`; airborne with `velocity.y = -2` and
`dt = 0.1` falls to `-2 + (-9.81) * 0.1`, for both characters (agent
pursuing a target 5 units away). -/
theorem grounding_clamp_and_freefall_witness :
    (AIAgent.followDistance < (5 : ℚ)) ∧
    (Player.applyMovement true ⟨0, -3, 0⟩ (1/10)).1.y = 0 ∧
    (Player.applyMovement false ⟨0, -2, 0⟩ (1/10)).1.y = -2 + gravityY * (1/10) ∧
    (AIAgent.updateMovement true ⟨0, -3, 0⟩ ⟨0, 0, 0⟩ ⟨5, 0, 0⟩ 5 (1/10)).1.y
      = 0 ∧
    (AIAgent.updateMovement false ⟨0, -2, 0⟩ ⟨0, 0, 0⟩ ⟨5, 0, 0⟩ 5 (1/10)).1.y
      = -2 + gravityY * (1/10) := by
  have hf : AIAgent.followDistance < (5 : ℚ) := by
    norm_num [AIAgent.followDistance]
  have h1 := grounding_clamp_and_freefall true ⟨0, -3, 0⟩ (1/10) ⟨0, 0, 0⟩
    ⟨5, 0, 0⟩ 5 hf
  have h2 := grounding_clamp_and_freefall false ⟨0, -2, 0⟩ (1/10) ⟨0, 0, 0⟩
    ⟨5, 0, 0⟩ 5 hf
  exact ⟨hf, h1.1 rfl (show (-3 : ℚ) < 0 by norm_num), h2.2.1 rfl,
    h1.2.2.1 rfl (show (-3 : ℚ) < 0 by norm_num), h2.2.2.2 rfl⟩

/-- Counterexample for C2: a pursuing agent tick with the target 1 unit
away (within the follow distance 1.5), airborne (grounded false), vertical
velocity `-2`, `dt = 0.1`: the tick leaves the vertical velocity at `-2`,
not decreased by `9.81 * dt` as the claim requires of every tick. -/
theorem agent_gravity_skipped_within_follow_cex :
    ((1 : ℚ) * 1 = AIAgent.planarDistSq ⟨0, 0, 0⟩ ⟨1, 0, 0⟩) ∧
    (1 : ℚ) ≤ AIAgent.followDistance ∧
    (AIAgent.update true false ⟨0, -2, 0⟩ ⟨0, 0, 0⟩ ⟨1, 0, 0⟩ 1 (1/10)).1.y
      = -2 ∧
    (-2 : ℚ) ≠ -2 + gravityY * (1/10) := by
  have h1 : AIAgent.update true false ⟨0, -2, 0⟩ ⟨0, 0, 0⟩ ⟨1, 0, 0⟩ 1 (1/10)
      = (⟨0, -2, 0⟩, none) := by
    show AIAgent.updateMovement false ⟨0, -2, 0⟩ ⟨0, 0, 0⟩ ⟨1, 0, 0⟩ 1 (1/10)
      = (⟨0, -2, 0⟩, none)
    dsimp only [AIAgent.updateMovement]
    rw [if_neg (by norm_num [AIAgent.followDistance])]
  refine ⟨by norm_num [AIAgent.planarDistSq],
    by norm_num [AIAgent.followDistance], ?_, by norm_num [gravityY]⟩
  rw [h1]

/-- Claim C3 (confirmed): while pursuing, a planar distance within the
follow distance issues no integrator call (the integrator receives zero
horizontal desired translation), and a planar distance beyond it issues a
call whose horizontal components are the normalized planar direction
scaled by `moveSpeed * dt`.  `len` is the planar distance, pinned by
`hlen` and `hnn`. -/
theorem agent_follow_distance_threshold (grounded : Bool)
    (vel current target : Vec3) (len dt : ℚ)
    (hlen : len * len = AIAgent.planarDistSq current target)
    (hnn : 0 ≤ len) :
    (len ≤ AIAgent.followDistance →
      (AIAgent.updateMovement grounded vel current target len dt).2 = none ∧
      horizontalDesired
        (AIAgent.updateMovement grounded vel current target len dt).2
        = (0, 0)) ∧
    (AIAgent.followDistance < len →
      (AIAgent.updateMovement grounded vel current target len dt).2.isSome
        = true ∧
      horizontalDesired
        (AIAgent.updateMovement grounded vel current target len dt).2
        = ((target.x - current.x) / len * AIAgent.moveSpeed * dt,
           (target.z - current.z) / len * AIAgent.moveSpeed * dt)) := by
  constructor
  · intro h
    dsimp only [AIAgent.updateMovement]
    rw [if_neg (not_lt.mpr h)]
    exact ⟨rfl, rfl⟩
  · intro h
    dsimp only [AIAgent.updateMovement]
    rw [if_pos h]
    refine ⟨rfl, ?_⟩
    dsimp only [horizontalDesired]
    rw [integrateVertical_x, integrateVertical_z]

/-- Witness for C3 at the spec's scenario 1: agent at the origin, target at
`(5, 0, 0)` (planar distance 5), `moveSpeed = 2.5`, `dt = 0.1`: the issued
horizontal desired translation is exactly `(1/4, 0)` — 0.25 units along
+x. -/
theorem agent_follow_distance_threshold_witness :
    ((5 : ℚ) * 5 = AIAgent.planarDistSq ⟨0, 0, 0⟩ ⟨5, 0, 0⟩) ∧
    horizontalDesired
      (AIAgent.updateMovement true ⟨0, 0, 0⟩ ⟨0, 0, 0⟩ ⟨5, 0, 0⟩ 5 (1/10)).2
      = (1/4, 0) := by
  constructor
  · norm_num [AIAgent.planarDistSq]
  · have h := (agent_follow_distance_threshold true ⟨0, 0, 0⟩ ⟨0, 0, 0⟩
      ⟨5, 0, 0⟩ 5 (1/10) (by norm_num [AIAgent.planarDistSq]) (by norm_num)).2
      (by norm_num [AIAgent.followDistance])
    rw [h.2]
    norm_num [AIAgent.moveSpeed]

/-- Claim C4 (corrected): a tick in which the agent issues no horizontal
movement — tracking disabled, or planar distance within the follow
distance — performs no vertical integration either: the velocity is
returned unchanged and the Movement Integrator is not called, so the agent
does not fall or ground on such ticks. -/
theorem agent_noop_when_idle_or_within_follow (tracking grounded : Bool)
    (vel current target : Vec3) (len dt : ℚ)
    (h : tracking = false ∨ len ≤ AIAgent.followDistance) :
    AIAgent.update tracking grounded vel current target len dt
      = (vel, none) := by
  rcases h with rfl | hle
  · rfl
  · cases tracking
    · rfl
    · show AIAgent.updateMovement grounded vel current target len dt
        = (vel, none)
      dsimp only [AIAgent.updateMovement]
      rw [if_neg (not_lt.mpr hle)]

/-- Witness for C4 (amended): an idle (tracking-disabled) grounded-false
agent tick leaves the velocity untouched and issues nothing. -/
theorem agent_noop_when_idle_or_within_follow_witness :
    AIAgent.update false true ⟨1, 2, 3⟩ ⟨0, 0, 0⟩ ⟨7, 0, 0⟩ 7 (1/10)
      = (⟨1, 2, 3⟩, none) :=
  agent_noop_when_idle_or_within_follow false true ⟨1, 2, 3⟩ ⟨0, 0, 0⟩
    ⟨7, 0, 0⟩ 7 (1/10) (Or.inl rfl)

/-- Counterexample for C4: an idle airborne agent with vertical velocity
`-2` is left with velocity exactly `-2` and no integrator call — gravity
does not accumulate and no vertical translation is applied, contradicting
the claim that the agent still falls and grounds on such ticks. -/
theorem idle_agent_frozen_cex :
    AIAgent.update false false ⟨0, -2, 0⟩ ⟨0, 0, 0⟩ ⟨9, 0, 0⟩ 9 (1/10)
      = (⟨0, -2, 0⟩, none) ∧
    (-2 : ℚ) ≠ -2 + gravityY * (1/10) :=
  ⟨rfl, by norm_num [gravityY]⟩

/-- Claim C5 (corrected): velocity sanitization is narrower than claimed —
on ticks with movement input held, the player's horizontal components are
reset to zero when NaN (not when infinite) before the lerp, which then
yields finite horizontal velocity, and the y component passes through the
input phase untouched; on no-input ticks a NaN horizontal component leaves
the whole horizontal update skipped with the NaN still in place. -/
theorem nan_sanitization_scope (tx tz a : ℚ) (decelFactor : FP) (v : FPVec3)
    (hx : v.x.isNaN = true ∨ v.x.isFinite = true)
    (hz : v.z.isNaN = true ∨ v.z.isFinite = true) :
    (Player.handleMovement (some (FP.num tx, FP.num tz)) (FP.num a)
        decelFactor v).x.isFinite = true ∧
    (Player.handleMovement (some (FP.num tx, FP.num tz)) (FP.num a)
        decelFactor v).z.isFinite = true ∧
    (Player.handleMovement (some (FP.num tx, FP.num tz)) (FP.num a)
        decelFactor v).y = v.y ∧
    ((v.x.isNaN = true ∨ v.z.isNaN = true) →
      Player.handleMovement none (FP.num a) decelFactor v = v) := by
  obtain ⟨x, y, z⟩ := v
  cases x <;> cases z <;>
    simp_all [Player.handleMovement, FP.lerp, FP.add, FP.sub, FP.neg, FP.mul,
      FP.isNaN, FP.isFinite]

/-- Witness for C5 (amended): a velocity with NaN in both horizontal
components is healed to finite horizontal components on an input-held
tick, and left byte-for-byte unchanged on a no-input tick. -/
theorem nan_sanitization_scope_witness :
    ((⟨FP.nan, FP.num 7, FP.nan⟩ : FPVec3).x.isNaN = true ∨
      (⟨FP.nan, FP.num 7, FP.nan⟩ : FPVec3).x.isFinite = true) ∧
    (Player.handleMovement (some (FP.num 3, FP.num 4)) (FP.num (1/2))
        (FP.num 1) ⟨FP.nan, FP.num 7, FP.nan⟩).x.isFinite = true ∧
    Player.handleMovement none (FP.num (1/2)) (FP.num 1)
        ⟨FP.nan, FP.num 7, FP.nan⟩ = ⟨FP.nan, FP.num 7, FP.nan⟩ := by
  have h := nan_sanitization_scope 3 4 (1/2) (FP.num 1)
    ⟨FP.nan, FP.num 7, FP.nan⟩ (Or.inl rfl) (Or.inl rfl)
  exact ⟨Or.inl rfl, h.1, h.2.2.2 (Or.inl rfl)⟩

/-- Counterexample for C5: a player tick starting with non-finite (NaN)
vertical velocity and no input held ends with the vertical velocity still
NaN in the state carried into the next tick — the non-finite component was
not treated as zero and did propagate. -/
theorem nan_vertical_velocity_propagates_cex :
    (⟨FP.num 0, FP.nan, FP.num 0⟩ : FPVec3).y.isFinite = false ∧
    (Player.updateFP none (FP.num 5) (FP.num (1/2)) false false
        (FP.num (1/10)) ⟨FP.num 0, FP.nan, FP.num 0⟩).1.y = FP.nan := by
  constructor
  · rfl
  · have h1 : Player.updateFP none (FP.num 5) (FP.num (1/2)) false false
        (FP.num (1/10)) ⟨FP.num 0, FP.nan, FP.num 0⟩
        = Player.applyMovementFP false (FP.num (1/10))
            ⟨(FP.num 0).mul (FP.num (1/2)), FP.nan,
              (FP.num 0).mul (FP.num (1/2))⟩ := rfl
    rw [h1, applyMovementFP_fst]
    rfl

/-- Claim C6 (corrected): when every submesh's trimesh construction fails,
`createModelCollider` produces one fallback bounding-box collider per
submesh — a nonempty list of per-submesh boxes whose length is the submesh
count, not a single whole-model box; the single whole-model box arises
exactly when the traversal produced no colliders at all (no submeshes). -/
theorem fallback_collider_coverage_amended (meshes : List Bool)
    (hfail : ∀ b ∈ meshes, b = false) :
    Physics.createModelCollider meshes ≠ [] ∧
    (meshes = [] →
      Physics.createModelCollider meshes = [ColliderShape.modelBox]) ∧
    (meshes ≠ [] →
      (Physics.createModelCollider meshes).length = meshes.length ∧
      ∀ c ∈ Physics.createModelCollider meshes,
        ∃ j, c = ColliderShape.submeshBox j) := by
  refine ⟨?_, ?_, ?_⟩
  · cases meshes with
    | nil => decide
    | cons b rest =>
      show Physics.buildSubmeshColliders 0 (b :: rest) ≠ []
      dsimp only [Physics.buildSubmeshColliders]
      exact List.cons_ne_nil _ _
  · intro h
    subst h
    rfl
  · intro h
    cases meshes with
    | nil => exact absurd rfl h
    | cons b rest =>
      constructor
      · show (Physics.buildSubmeshColliders 0 (b :: rest)).length
          = (b :: rest).length
        exact buildSubmeshColliders_length 0 (b :: rest)
      · intro c hc
        exact buildSubmeshColliders_all_fail (b :: rest) hfail 0 c hc

/-- Witness for C6 (amended): a one-submesh model whose trimesh fails
yields a nonempty collider list of length 1 (its per-submesh box). -/
theorem fallback_collider_coverage_amended_witness :
    (∀ b ∈ [false], b = false) ∧
    Physics.createModelCollider [false] ≠ [] ∧
    (Physics.createModelCollider [false]).length = 1 := by
  have h := fallback_collider_coverage_amended [false] (by decide)
  exact ⟨by decide, h.1, (h.2.2 (by decide)).1⟩

/-- Counterexample for C6: a two-submesh model where every trimesh
construction fails yields two per-submesh box colliders — not exactly one
whole-model bounding-box collider as the claim states. -/
theorem all_fail_model_per_submesh_boxes_cex :
    (∀ b ∈ [false, false], b = false) ∧
    Physics.createModelCollider [false, false] ≠ [ColliderShape.modelBox] ∧
    (Physics.createModelCollider [false, false]).length ≠ 1 := by decide

/-- Claim C8 (corrected): granted the external controller's contract (its
corrected movement is no longer than the desired translation and its
corrected end position stays out of the blocking volume), the committed
horizontal displacement never exceeds the desired displacement (stated on
squared magnitudes, equivalent for nonnegative lengths); but the committed
position is guaranteed outside the blocking volume only when the
vertical-override condition does not fire — the override substitutes the
raw desired vertical component and can penetrate (see the
counterexample). -/
theorem non_penetration_bound_amended (blocking : Cuboid) (p : Physics)
    (c : CharacterController) (col : Collider) (cur desired : Vec3)
    (hc : p.characterController = some c) (hp : col.parent = some cur)
    (hcontract : controllerContract blocking cur desired
      (c.computeMovement cur desired)) :
    horizNormSq (finalMovement (c.computeMovement cur desired) desired)
      ≤ normSq desired ∧
    (¬ (|(c.computeMovement cur desired).x| < eps ∧
          |(c.computeMovement cur desired).z| < eps ∧ eps < |desired.y|) →
      (p.moveCharacter (some col) desired).newTranslation
        = some (cur + c.computeMovement cur desired) ∧
      blocking.containsInterior (cur + c.computeMovement cur desired)
        = false) := by
  obtain ⟨hle, hout⟩ := hcontract
  constructor
  · have key : horizNormSq (finalMovement (c.computeMovement cur desired)
        desired) = (c.computeMovement cur desired).x ^ 2
          + (c.computeMovement cur desired).z ^ 2 := rfl
    rw [key]
    have h2 := sq_nonneg (c.computeMovement cur desired).y
    dsimp only [normSq] at hle ⊢
    linarith
  · intro hov
    have hfm : finalMovement (c.computeMovement cur desired) desired
        = c.computeMovement cur desired := by
      dsimp only [finalMovement]
      rw [if_neg hov]
    have hmv : p.moveCharacter (some col) desired
        = ⟨some (cur + finalMovement (c.computeMovement cur desired) desired),
            false⟩ := by
      simp [Physics.moveCharacter, Physics.moveWith, hc, hp]
    rw [hmv, hfm]
    exact ⟨rfl, hout⟩

/-- Witness for C8 (amended): a wall scenario with desired `(2, 0, 0)` into
a wall slab, corrected `(1/4, 0, 0)` satisfying the controller contract,
and no vertical override (desired y is 0): the committed horizontal
displacement is within bound and the committed position is outside the
wall. -/
theorem non_penetration_bound_amended_witness :
    controllerContract ⟨⟨3, 0, 0⟩, ⟨1, 5, 5⟩⟩ ⟨0, 0, 0⟩ ⟨2, 0, 0⟩
      ⟨1/4, 0, 0⟩ ∧
    horizNormSq (finalMovement ⟨1/4, 0, 0⟩ ⟨2, 0, 0⟩) ≤ normSq ⟨2, 0, 0⟩ ∧
    Cuboid.containsInterior ⟨⟨3, 0, 0⟩, ⟨1, 5, 5⟩⟩
      ((⟨0, 0, 0⟩ : Vec3) + ⟨1/4, 0, 0⟩) = false := by
  have hcontract : controllerContract ⟨⟨3, 0, 0⟩, ⟨1, 5, 5⟩⟩ ⟨0, 0, 0⟩
      ⟨2, 0, 0⟩ ⟨1/4, 0, 0⟩ := by
    constructor
    · norm_num [normSq]
    · norm_num [Cuboid.containsInterior, Vec3.add_def, abs]
  have h := non_penetration_bound_amended ⟨⟨3, 0, 0⟩, ⟨1, 5, 5⟩⟩
    (Physics.mk (some ⟨fun _ _ => ⟨1/4, 0, 0⟩, false⟩) none)
    ⟨fun _ _ => ⟨1/4, 0, 0⟩, false⟩ ⟨some ⟨0, 0, 0⟩⟩ ⟨0, 0, 0⟩ ⟨2, 0, 0⟩
    rfl rfl hcontract
  refine ⟨hcontract, h.1, ?_⟩
  have h2 := h.2 (by norm_num [eps, abs])
  exact h2.2

/-- Counterexample for C8: a ceiling slab, desired translation `(0, 5/2, 0)`
whose endpoint is inside the slab, and a contract-satisfying corrected
movement `(0, 1, 0)` (stopping below the slab): the vertical override
fires — both corrected horizontal components are 0 and the desired
vertical exceeds the epsilon — so the integrator commits `(0, 5/2, 0)`,
which lies strictly inside the blocking volume. -/
theorem vertical_override_penetration_cex :
    controllerContract ⟨⟨0, 3, 0⟩, ⟨5, 1, 5⟩⟩ ⟨0, 0, 0⟩ ⟨0, 5/2, 0⟩
      ⟨0, 1, 0⟩ ∧
    Cuboid.containsInterior ⟨⟨0, 3, 0⟩, ⟨5, 1, 5⟩⟩
      ((⟨0, 0, 0⟩ : Vec3) + ⟨0, 5/2, 0⟩) = true ∧
    (Physics.mk (some ⟨fun _ _ => ⟨0, 1, 0⟩, false⟩) none).moveCharacter
        (some ⟨some ⟨0, 0, 0⟩⟩) ⟨0, 5/2, 0⟩
      = ⟨some ⟨0, 5/2, 0⟩, false⟩ ∧
    Cuboid.containsInterior ⟨⟨0, 3, 0⟩, ⟨5, 1, 5⟩⟩ ⟨0, 5/2, 0⟩ = true := by
  refine ⟨⟨?_, ?_⟩, ?_, ?_, ?_⟩
  · norm_num [normSq]
  · norm_num [Cuboid.containsInterior, Vec3.add_def, abs]
  · norm_num [Cuboid.containsInterior, Vec3.add_def, abs]
  · have h : (Physics.mk (some ⟨fun _ _ => ⟨0, 1, 0⟩, false⟩)
        none).moveCharacter (some ⟨some ⟨0, 0, 0⟩⟩) ⟨0, 5/2, 0⟩
        = ⟨some ((⟨0, 0, 0⟩ : Vec3)
            + finalMovement ⟨0, 1, 0⟩ ⟨0, 5/2, 0⟩), false⟩ := rfl
    rw [h]
    norm_num [finalMovement, eps, Vec3.add_def, abs]
  · norm_num [Cuboid.containsInterior, abs]

/-- Claim C9 (corrected): the collision world's `step()` runs exactly once
per engine tick, but as the first physics action of the tick — before that
tick's desired-translation requests and read-backs, not after the
requests. -/
theorem step_once_per_tick_at_start (playerIssues tracking agentIssues :
    Bool) :
    (Engine.tickEvents playerIssues tracking agentIssues).count
      TickEvent.step = 1 ∧
    (Engine.tickEvents playerIssues tracking agentIssues).head?
      = some TickEvent.step := by
  cases playerIssues <;> cases tracking <;> cases agentIssues <;> decide

/-- Counterexample for C9: in a tick where both characters issue desired
translations, movement requests occur strictly after the single `step`
event, refuting the claim that `step` is called after all of that tick's
desired-translation requests. -/
theorem step_precedes_requests_cex :
    (Engine.tickEvents true true true).count TickEvent.step = 1 ∧
    (Engine.afterStep (Engine.tickEvents true true true)).any
      TickEvent.isMoveRequest = true := by decide

end Dream
